import Mathlib

/-!
Shallow embedding of the driftq side-effects worker
(src/worker/app/worker.py and src/worker/app/side_effects_store.py).

The ledger (a sqlite table keyed by `effect_id`) is modelled as an
association list of rows; the artifact directory is an association list
from file path to ticket contents.  Broker calls (event emission, produce,
ack) are recorded as actions in the order the code performs them; the
handler's raised exceptions become an explicit `Outcome`.  The single
store operation that can fail for reasons other than a duplicate key
(`mark_in_progress_if_new`) takes an explicit fault flag modelling an
injected sqlite error other than `IntegrityError`.
-/

namespace DriftQ

/-- Python `str(x or dflt)` for an optional string field: `None` and the
empty string are falsy and select the default (worker.py lines 43-50). -/
def strOr (v : Option String) (dflt : String) : String :=
  match v with
  | none => dflt
  | some s => if s = "" then dflt else s

/-- Python `int(x or dflt)` for an optional integer field: `None` and `0`
are falsy and select the default (worker.py lines 47-49, 241-242). -/
def intOr (v : Option Int) (dflt : Int) : Int :=
  match v with
  | none => dflt
  | some n => if n = 0 then dflt else n

/-- Python `str(cmd.get "run_id")` with no default: a missing key renders
as the string `None` (worker.py line 42). -/
def pyStr (v : Option String) : String :=
  v.getD "None"

/-- A command value, as consumed from the `sidefx.commands` topic.  Each
field is optional: the code substitutes defaults for missing or falsy
fields (worker.py lines 42-50 and 240-245). -/
structure Cmd where
  run_id : Option String
  events_topic : Option String
  step_id : Option String
  business_key : Option String
  amount : Option ℚ
  attempt : Option Int
  max_attempts : Option Int
  fail_before_effect_n : Option Int
  fail_mode : Option String
  ts : Option Int
deriving DecidableEq, Repr

/-- A row of the `side_effects` sqlite table (side_effects_store.py,
`ensure_schema`).  `payload` stands for the `payload_json` column, which
stores the canonical (sorted-keys, compact) JSON serialisation of the
originating command; the serialisation is injective so the row keeps the
command value itself. -/
structure Row where
  run_id : String
  step_id : String
  business_key : String
  status : String
  artifact_path : Option String
  created_ms : Int
  updated_ms : Int
  payload : Cmd
deriving DecidableEq, Repr

/-- The ledger: the `side_effects` table keyed by its `effect_id`
primary key. -/
abbrev Ledger := List (String × Row)

/-- Contents of one ticket artifact file, as written by worker.py
lines 156-163. -/
structure Ticket where
  created_ms : Int
  run_id : String
  step_id : String
  business_key : String
  amount : ℚ
  note : String
deriving DecidableEq, Repr

/-- The artifact directory: ticket files keyed by path. -/
abbrev Artifacts := List (String × Ticket)

/-- Durable worker-visible state: the sqlite ledger plus the artifact
directory.  Both survive worker crashes. -/
structure WState where
  ledger : Ledger
  artifacts : Artifacts
deriving DecidableEq, Repr

/-- Association-list lookup by key (sqlite `SELECT ... WHERE effect_id = ?`
on a primary-key column / `os.path.exists` on the artifact directory). -/
def assocLookup {α : Type} (l : List (String × α)) (k : String) : Option α :=
  match l with
  | [] => none
  | (k2, v) :: rest => if k2 = k then some v else assocLookup rest k

/-- worker.py `effect_id_for`: the stable deduplication key. -/
def effect_id_for (run_id step_id business_key : String) : String :=
  s!"{run_id}:{step_id}:{business_key}"

/-- Path of the ticket artifact for a business key (worker.py lines
107-110 and 151-154).  The configured directory prefix
(`ARTIFACTS_DIR`/tickets) is fixed per deployment and elided. -/
def ticketPath (business_key : String) : String :=
  s!"ticket_{business_key}.json"

/-- The sqlite exceptions relevant to the store: the duplicate-primary-key
`IntegrityError`, and any other database error. -/
inductive SqliteError where
  | integrityError
  | operationalError
deriving DecidableEq, Repr

/-- The `INSERT INTO side_effects ...` statement of
`mark_in_progress_if_new`: raises `IntegrityError` exactly on a
duplicate `effect_id` primary key (every NOT NULL column is bound, so no
other integrity violation is possible); `fault` injects any other
database error. -/
def execInsert (fault : Bool) (l : Ledger) (effect_id : String) (row : Row) :
    Except SqliteError Ledger :=
  if fault then .error .operationalError
  else
    match assocLookup l effect_id with
    | some _ => .error .integrityError
    | none => .ok ((effect_id, row) :: l)

/-- side_effects_store.py `get_status`: status and artifact path of the
row for `effect_id`, if any. -/
def get_status (l : Ledger) (effect_id : String) : Option (String × Option String) :=
  (assocLookup l effect_id).map (fun r => (r.status, r.artifact_path))

/-- side_effects_store.py `mark_in_progress_if_new`: attempt the atomic
unique insert of an `in_progress` row; `IntegrityError` is caught and
reported as `false`, any other error propagates. -/
def mark_in_progress_if_new (fault : Bool) (l : Ledger) (effect_id : String)
    (run_id step_id business_key : String) (payload : Cmd) (now_ms : Int) :
    Except SqliteError (Ledger × Bool) :=
  match execInsert fault l effect_id
      { run_id := run_id, step_id := step_id, business_key := business_key,
        status := "in_progress", artifact_path := none,
        created_ms := now_ms, updated_ms := now_ms, payload := payload } with
  | .ok l2 => .ok (l2, true)
  | .error .integrityError => .ok (l, false)
  | .error e => .error e

/-- side_effects_store.py `mark_done`: `UPDATE ... SET status='done',
artifact_path=?, updated_ms=? WHERE effect_id=?` — updates the matching
row if present, otherwise a no-op. -/
def mark_done (l : Ledger) (effect_id : String) (artifact_path : String)
    (now_ms : Int) : Ledger :=
  l.map (fun p =>
    if p.1 = effect_id then
      (p.1,
        { p.2 with
            status := "done"
            artifact_path := some artifact_path
            updated_ms := now_ms })
    else p)

/-- worker.py line 81: `status and status[0] == "done"` — whether the
status probe observed a `done` row. -/
def probeIsDone (l : Ledger) (effect_id : String) : Bool :=
  match get_status l effect_id with
  | some (s, _) => s = "done"
  | none => false

/-- The body of an emitted run event, with the fields the worker puts in
it (timestamps elided; the event carrying the backoff reports it rounded
to two decimals, the unrounded computed value is recorded here). -/
inductive EventBody where
  | stepStarted (run_id step_id : String) (attempt : Int)
  | stepFailed (run_id step_id : String) (attempt : Int) (reason : String)
  | sideEffectSkipped (run_id step_id business_key effect_id reason : String)
  | sideEffectHealed (run_id effect_id : String)
  | sideEffectExecuting (run_id step_id business_key effect_id : String) (amount : ℚ)
  | sideEffectDone (run_id step_id business_key effect_id artifact_path : String)
  | chaosCrashNow (run_id : String)
  | stepCompleted (run_id step_id : String) (attempt : Int)
  | runCompleted (run_id : String)
  | retryConsidered (run_id step_id : String) (attempt next_attempt max_attempts : Int)
      (error : String) (backoff_s : ℚ)
  | retryScheduled (run_id step_id : String) (attempt : Int)
  | runDlq (run_id step_id : String) (error : String)
deriving DecidableEq, Repr

/-- A value produced to a broker topic other than an events topic: the
DLQ record (worker.py lines 279-289) or a retry command (line 310-312). -/
inductive ProduceValue where
  | dlqRecord (ts : Int) (run_id step_id business_key : String)
      (attempt max_attempts : Int) (error : String) (command : Cmd)
  | commandMsg (c : Cmd)
deriving DecidableEq, Repr

/-- One observable broker interaction of the worker, in program order. -/
inductive Action where
  | emit (topic : String) (body : EventBody) (idem : String)
  | produce (topic : String) (value : ProduceValue) (idem : String)
  | ack
deriving DecidableEq, Repr

/-- How one `handle_command` invocation returns to the consume loop:
normal return, a raised exception (message of `str(e)`), or abrupt
process termination via `os._exit`. -/
inductive Outcome where
  | ok
  | failed (msg : String)
  | crashed (code : Nat)
deriving DecidableEq, Repr

/-- The field bindings at the top of `handle_command`
(worker.py lines 42-50). -/
structure Bound where
  run_id : String
  events_topic : String
  step_id : String
  business_key : String
  amount : ℚ
  attempt : Int
  fail_before_effect_n : Int
  fail_mode : String
deriving DecidableEq, Repr

/-- worker.py lines 42-50: bind command fields, substituting defaults for
missing or falsy values. -/
def bindCmd (c : Cmd) : Bound :=
  let run_id := pyStr c.run_id
  { run_id := run_id
    events_topic := strOr c.events_topic ("sidefx.events." ++ run_id)
    step_id := strOr c.step_id "charge_card"
    business_key := strOr c.business_key "missing"
    amount := c.amount.getD 0
    attempt := intOr c.attempt 0
    fail_before_effect_n := intOr c.fail_before_effect_n 0
    fail_mode := strOr c.fail_mode "none" }

/-- The effect id a command binds to (worker.py line 79). -/
def eidOf (c : Cmd) : String :=
  effect_id_for (bindCmd c).run_id (bindCmd c).step_id (bindCmd c).business_key

/-- Result of one `handle_command` invocation: the durable state after
it, the actions it performed in order, how it returned, and (as
instrumentation of the local variable `inserted` at worker.py line 97)
the value the ledger claim returned, when the claim ran at all. -/
structure HandlerResult where
  state : WState
  events : List Action
  outcome : Outcome
  claimed : Option Bool
deriving DecidableEq, Repr

/-- The `step.started` emit of worker.py lines 54-59. -/
def stepStartedAct (b : Bound) : Action :=
  .emit b.events_topic (.stepStarted b.run_id b.step_id b.attempt)
    ("evt:" ++ b.run_id ++ ":" ++ b.step_id ++ ":started:a" ++ toString b.attempt)

/-- The `step.failed` emit of worker.py lines 63-75. -/
def stepFailedAct (b : Bound) : Action :=
  .emit b.events_topic
    (.stepFailed b.run_id b.step_id b.attempt "forced_failure_before_side_effect")
    ("evt:" ++ b.run_id ++ ":" ++ b.step_id ++ ":failed_before:a" ++ toString b.attempt)

/-- The `side_effect.skipped` (reason `already_done`) emit of worker.py
lines 82-95. -/
def skippedDoneAct (b : Bound) (eid : String) : Action :=
  .emit b.events_topic
    (.sideEffectSkipped b.run_id b.step_id b.business_key eid "already_done")
    ("evt:" ++ b.run_id ++ ":" ++ b.step_id ++ ":effect:skipped")

/-- The `side_effect.healed` emit of worker.py lines 113-118. -/
def healedAct (b : Bound) (eid : String) : Action :=
  .emit b.events_topic (.sideEffectHealed b.run_id eid)
    ("evt:" ++ b.run_id ++ ":" ++ b.step_id ++ ":effect:healed")

/-- The `side_effect.skipped` (reason `already_in_progress`) emit of
worker.py lines 120-133. -/
def skippedInProgressAct (b : Bound) (eid : String) : Action :=
  .emit b.events_topic
    (.sideEffectSkipped b.run_id b.step_id b.business_key eid "already_in_progress")
    ("evt:" ++ b.run_id ++ ":" ++ b.step_id ++ ":effect:skipped_in_progress")

/-- The `side_effect.executing` emit of worker.py lines 135-148. -/
def executingAct (b : Bound) (eid : String) : Action :=
  .emit b.events_topic
    (.sideEffectExecuting b.run_id b.step_id b.business_key eid b.amount)
    ("evt:" ++ b.run_id ++ ":" ++ b.step_id ++ ":effect:exec")

/-- The `side_effect.done` emit of worker.py lines 175-188. -/
def doneAct (b : Bound) (eid artifact_path : String) : Action :=
  .emit b.events_topic
    (.sideEffectDone b.run_id b.step_id b.business_key eid artifact_path)
    ("evt:" ++ b.run_id ++ ":" ++ b.step_id ++ ":effect:done")

/-- The `chaos.crash_now` emit of worker.py lines 192-202. -/
def chaosAct (b : Bound) : Action :=
  .emit b.events_topic (.chaosCrashNow b.run_id)
    ("evt:" ++ b.run_id ++ ":" ++ b.step_id ++ ":chaos:crash")

/-- The `step.completed` emit of worker.py lines 206-211. -/
def stepCompletedAct (b : Bound) : Action :=
  .emit b.events_topic (.stepCompleted b.run_id b.step_id b.attempt)
    ("evt:" ++ b.run_id ++ ":" ++ b.step_id ++ ":completed:a" ++ toString b.attempt)

/-- The `run.completed` emit of worker.py line 212. -/
def runCompletedAct (b : Bound) : Action :=
  .emit b.events_topic (.runCompleted b.run_id) ("evt:" ++ b.run_id ++ ":completed")

/-- The ticket payload written by worker.py lines 156-163. -/
def ticketOf (b : Bound) (now : Int) : Ticket :=
  { created_ms := now, run_id := b.run_id, step_id := b.step_id,
    business_key := b.business_key, amount := b.amount,
    note := "fake external side effect (ticket/webhook/charge)" }

/-- worker.py lines 165-171: the create-only artifact write.  A
pre-existing file raises `FileExistsError`, which is swallowed (`pass`),
leaving the file untouched. -/
def createOnlyWrite (fs : Artifacts) (path : String) (t : Ticket) : Artifacts :=
  match assocLookup fs path with
  | some _ => fs
  | none => (path, t) :: fs

/-- worker.py `handle_command` (lines 41-212), as a function of the
injected store fault, the wall clock and the durable state. -/
def handle_command (dbFault : Bool) (now : Int) (st : WState) (c : Cmd) :
    HandlerResult :=
  let b := bindCmd c
  if b.attempt < b.fail_before_effect_n then
    { state := st
      events := [stepStartedAct b, stepFailedAct b]
      outcome := .failed "forced failure before side effect"
      claimed := none }
  else
    let eid := effect_id_for b.run_id b.step_id b.business_key
    if probeIsDone st.ledger eid then
      { state := st
        events := [stepStartedAct b, skippedDoneAct b eid,
          stepCompletedAct b, runCompletedAct b]
        outcome := .ok
        claimed := none }
    else
      match mark_in_progress_if_new dbFault st.ledger eid b.run_id b.step_id
          b.business_key c now with
      | .error _ =>
        -- the sqlite exception propagates out of handle_command
        { state := st, events := [stepStartedAct b],
          outcome := .failed "ledger error", claimed := none }
      | .ok (l2, inserted) =>
        if inserted then
          let artifact_path := ticketPath b.business_key
          let fs2 := createOnlyWrite st.artifacts artifact_path (ticketOf b now)
          let l3 := mark_done l2 eid artifact_path now
          if b.fail_mode = "crash_after_effect_before_ack" then
            { state := { ledger := l3, artifacts := fs2 }
              events := [stepStartedAct b, executingAct b eid,
                doneAct b eid artifact_path, chaosAct b]
              outcome := .crashed 137
              claimed := some true }
          else
            { state := { ledger := l3, artifacts := fs2 }
              events := [stepStartedAct b, executingAct b eid,
                doneAct b eid artifact_path, stepCompletedAct b, runCompletedAct b]
              outcome := .ok
              claimed := some true }
        else
          let artifact_path := ticketPath b.business_key
          match assocLookup st.artifacts artifact_path with
          | some _ =>
            { state := { ledger := mark_done l2 eid artifact_path now,
                         artifacts := st.artifacts }
              events := [stepStartedAct b, healedAct b eid,
                stepCompletedAct b, runCompletedAct b]
              outcome := .ok
              claimed := some false }
          | none =>
            { state := { ledger := l2, artifacts := st.artifacts }
              events := [stepStartedAct b, skippedInProgressAct b eid,
                stepCompletedAct b, runCompletedAct b]
              outcome := .ok
              claimed := some false }

/-- The decoded value of one broker delivery: either not a dict (a
malformed value, worker.py line 232) or a dict-shaped command. -/
inductive MsgValue where
  | notDict
  | cmd (c : Cmd)
deriving DecidableEq, Repr

/-- One broker delivery together with the nondeterminism of its
processing: the wall clock, the `random.random()` sample drawn if the
retry path runs (worker.py line 259), and whether the ledger insert
suffers an injected non-duplicate-key fault. -/
structure Delivery where
  value : MsgValue
  now : Int
  u : ℚ
  dbFault : Bool
deriving DecidableEq, Repr

/-- Result of the consume loop's processing of one delivery: the durable
state afterwards, all broker actions in order, and whether the process
crashed (in which case the delivery was never acked and will be
redelivered). -/
structure LoopResult where
  state : WState
  actions : List Action
  crashed : Bool
deriving DecidableEq, Repr

/-- worker.py line 259: the advisory retry backoff in seconds,
`min(2 ** attempt, 10) + random.random()`. -/
def backoff_s (attempt : Int) (u : ℚ) : ℚ :=
  min ((2 : ℚ) ^ attempt) 10 + u

/-- The field bindings at the top of the consume loop
(worker.py lines 240-245); the defaults differ slightly from the
handler's own bindings (`run_id` falls back to `unknown`). -/
structure LoopBound where
  run_id : String
  attempt : Int
  max_attempts : Int
  events_topic : String
  step_id : String
  business_key : String
deriving DecidableEq, Repr

/-- worker.py lines 240-245. -/
def loopBind (c : Cmd) : LoopBound :=
  let run_id := strOr c.run_id "unknown"
  { run_id := run_id
    attempt := intOr c.attempt 0
    max_attempts := intOr c.max_attempts 5
    events_topic := strOr c.events_topic ("sidefx.events." ++ run_id)
    step_id := strOr c.step_id "charge_card"
    business_key := strOr c.business_key "missing" }

/-- The `retry.considered` emit of worker.py lines 260-275. -/
def consideredAct (lb : LoopBound) (err : String) (u : ℚ) : Action :=
  .emit lb.events_topic
    (.retryConsidered lb.run_id lb.step_id lb.attempt (lb.attempt + 1)
      lb.max_attempts err (backoff_s lb.attempt u))
    ("evt:" ++ lb.run_id ++ ":" ++ lb.step_id ++ ":retry:considered:a" ++
      toString lb.attempt)

/-- The DLQ produce of worker.py lines 279-292, with its idempotency key
`dlq:{run_id}:{step_id}:{business_key}`. -/
def dlqProduceAct (lb : LoopBound) (now : Int) (err : String) (c : Cmd) : Action :=
  .produce "sidefx.dlq"
    (.dlqRecord now lb.run_id lb.step_id lb.business_key lb.attempt
      lb.max_attempts err c)
    ("dlq:" ++ lb.run_id ++ ":" ++ lb.step_id ++ ":" ++ lb.business_key)

/-- The `run.dlq` emit of worker.py lines 296-301. -/
def runDlqAct (lb : LoopBound) (err : String) : Action :=
  .emit lb.events_topic (.runDlq lb.run_id lb.step_id err)
    ("evt:" ++ lb.run_id ++ ":" ++ lb.step_id ++ ":dlq")

/-- worker.py lines 310-312: the retried command is a copy of the
original with `attempt` set to `next_attempt` and a fresh `ts`. -/
def retryCmdOf (c : Cmd) (next_attempt : Int) (now : Int) : Cmd :=
  { c with attempt := some next_attempt, ts := some now }

/-- The retry-command produce of worker.py lines 314-319, with its
idempotency key `cmd:{run_id}:{step_id}:{business_key}:a{next}`. -/
def retryProduceAct (lb : LoopBound) (now : Int) (c : Cmd) : Action :=
  .produce "sidefx.commands" (.commandMsg (retryCmdOf c (lb.attempt + 1) now))
    ("cmd:" ++ lb.run_id ++ ":" ++ lb.step_id ++ ":" ++ lb.business_key ++
      ":a" ++ toString (lb.attempt + 1))

/-- The `retry.scheduled` emit of worker.py lines 323-328. -/
def retryScheduledAct (lb : LoopBound) : Action :=
  .emit lb.events_topic (.retryScheduled lb.run_id lb.step_id (lb.attempt + 1))
    ("evt:" ++ lb.run_id ++ ":" ++ lb.step_id ++ ":retry:scheduled:a" ++
      toString (lb.attempt + 1))

/-- The body of the consume loop in worker.py `main` (lines 230-333):
ack-and-drop non-dict values; otherwise run `handle_command` and, on a
raised failure, schedule a retry or produce a DLQ record, acking the
original delivery in either branch.  A chaos crash leaves the delivery
unacked. -/
def process_delivery (st : WState) (d : Delivery) : LoopResult :=
  match d.value with
  | .notDict => { state := st, actions := [.ack], crashed := false }
  | .cmd c =>
    let lb := loopBind c
    let h := handle_command d.dbFault d.now st c
    match h.outcome with
    | .ok => { state := h.state, actions := h.events ++ [.ack], crashed := false }
    | .crashed _ => { state := h.state, actions := h.events, crashed := true }
    | .failed err =>
      if lb.max_attempts ≤ lb.attempt + 1 then
        { state := h.state
          actions := h.events ++ [consideredAct lb err d.u,
            dlqProduceAct lb d.now err c, runDlqAct lb err, .ack]
          crashed := false }
      else
        { state := h.state
          actions := h.events ++ [consideredAct lb err d.u,
            retryProduceAct lb d.now c, retryScheduledAct lb, .ack]
          crashed := false }

/-- Process a sequence of deliveries (redeliveries and post-crash
restarts included: the durable state persists across crashes), returning
the final state and every action in order. -/
def runAll (st : WState) : List Delivery → WState × List Action
  | [] => (st, [])
  | d :: ds =>
    let r := process_delivery st d
    let rest := runAll r.state ds
    (rest.1, r.actions ++ rest.2)

/-- The successive durable states along a delivery sequence, the initial
state included. -/
def stateTrace (st : WState) : List Delivery → List WState
  | [] => [st]
  | d :: ds => st :: stateTrace (process_delivery st d).state ds

/-- Whether the ticket artifact at path `p` is present in a state. -/
def presentAt (p : String) (st : WState) : Bool :=
  (assocLookup st.artifacts p).isSome

/-- Number of absent-to-present transitions along a boolean presence
sequence. -/
def riseCount : List Bool → Nat
  | [] => 0
  | [_] => 0
  | a :: b :: rest => (if !a && b then 1 else 0) + riseCount (b :: rest)

/-! Concrete fixtures used to evaluate the development on closed inputs. -/

/-- The empty durable state: fresh ledger, empty artifact directory. -/
def wStEmpty : WState := { ledger := [], artifacts := [] }

/-- A clean happy-path command (spec scenario 1). -/
def wCmdA : Cmd :=
  { run_id := some "r1", events_topic := none, step_id := none,
    business_key := some "order-A", amount := some 42, attempt := some 0,
    max_attempts := some 5, fail_before_effect_n := some 0,
    fail_mode := some "none", ts := some 0 }

/-- A command in chaos mode (spec scenario 3). -/
def wCmdCrash : Cmd :=
  { wCmdA with business_key := some "order-C",
               fail_mode := some "crash_after_effect_before_ack" }

/-- A command whose first attempt fails before the side effect
(spec scenario 2). -/
def wCmdPre : Cmd :=
  { wCmdA with business_key := some "order-B", fail_before_effect_n := some 1 }

/-- A command that exhausts retries immediately
(`max_attempts = 1, fail_before_effect_n = 1`). -/
def wCmdDlq : Cmd :=
  { wCmdA with max_attempts := some 1, fail_before_effect_n := some 1 }

/-- A command value with every field missing. -/
def wCmdEmpty : Cmd :=
  { run_id := none, events_topic := none, step_id := none, business_key := none,
    amount := none, attempt := none, max_attempts := none,
    fail_before_effect_n := none, fail_mode := none, ts := none }

/-- An `in_progress` ledger row for `wCmdCrash`. -/
def wRowInProgress : Row :=
  { run_id := "r1", step_id := "charge_card", business_key := "order-C",
    status := "in_progress", artifact_path := none, created_ms := 0,
    updated_ms := 0, payload := wCmdCrash }

/-- A state whose ledger holds an `in_progress` row for `wCmdCrash` and
whose artifact directory is empty: a prior claimant is still inside the
critical section. -/
def wStInProgress : WState :=
  { ledger := [("r1:charge_card:order-C", wRowInProgress)], artifacts := [] }

/-- A `done` ledger row for `wCmdA`. -/
def wRowDone : Row :=
  { run_id := "r1", step_id := "charge_card", business_key := "order-A",
    status := "done", artifact_path := some "ticket_order-A.json",
    created_ms := 0, updated_ms := 0, payload := wCmdA }

/-- A state whose ledger already holds a `done` row for `wCmdA`. -/
def wStDone : WState :=
  { ledger := [("r1:charge_card:order-A", wRowDone)], artifacts := [] }

/-- A pre-existing ticket for business key `order-A`. -/
def wTicketA : Ticket :=
  { created_ms := -5, run_id := "r0", step_id := "charge_card",
    business_key := "order-A", amount := 7,
    note := "fake external side effect (ticket/webhook/charge)" }

/-- A state with an orphaned artifact for `order-A` and no ledger row
(spec scenario 6: heal from orphaned artifact). -/
def wStArtifactOnly : WState :=
  { ledger := [], artifacts := [("ticket_order-A.json", wTicketA)] }

/-- A state with both an `in_progress` row for `wCmdCrash` and an
artifact for `order-C`: a prior winner crashed between the artifact
write and `mark_done`. -/
def wStHealable : WState :=
  { ledger := [("r1:charge_card:order-C", wRowInProgress)]
    artifacts := [("ticket_order-C.json",
      { created_ms := -5, run_id := "r1", step_id := "charge_card",
        business_key := "order-C", amount := 42,
        note := "fake external side effect (ticket/webhook/charge)" })] }

/-! Lemmas about the store operations. -/

theorem mark_new_of_absent (l : Ledger) (eid run_id step_id business_key : String)
    (payload : Cmd) (now : Int) (h : assocLookup l eid = none) :
    mark_in_progress_if_new false l eid run_id step_id business_key payload now =
      .ok ((eid,
        { run_id := run_id, step_id := step_id, business_key := business_key,
          status := "in_progress", artifact_path := none,
          created_ms := now, updated_ms := now, payload := payload }) :: l, true) := by
  unfold mark_in_progress_if_new execInsert
  rw [h]
  simp

theorem mark_new_of_present (l : Ledger) (eid run_id step_id business_key : String)
    (payload : Cmd) (now : Int) (r : Row) (h : assocLookup l eid = some r) :
    mark_in_progress_if_new false l eid run_id step_id business_key payload now =
      .ok (l, false) := by
  unfold mark_in_progress_if_new execInsert
  rw [h]
  simp

/-- C3 -- The ledger claim `mark_in_progress_if_new` atomically inserts an
`in_progress` row carrying the given identifiers and command payload,
returning true exactly when no row with that `effect_id` existed and
false exactly when one did; a ledger error other than the duplicate-key
`IntegrityError` propagates out of the call, and the handler surfaces it
as a raised failure (which the consume loop turns into a retry). -/
theorem c3_mark_in_progress_semantics
    (l : Ledger) (eid run_id step_id business_key : String) (payload : Cmd)
    (now : Int) :
    (assocLookup l eid = none →
      mark_in_progress_if_new false l eid run_id step_id business_key payload now =
        .ok ((eid,
          { run_id := run_id, step_id := step_id, business_key := business_key,
            status := "in_progress", artifact_path := none,
            created_ms := now, updated_ms := now, payload := payload }) :: l, true))
  ∧ (∀ r : Row, assocLookup l eid = some r →
      mark_in_progress_if_new false l eid run_id step_id business_key payload now =
        .ok (l, false))
  ∧ mark_in_progress_if_new true l eid run_id step_id business_key payload now =
      .error .operationalError
  ∧ (∀ (st : WState) (c : Cmd) (now2 : Int),
      ¬ (bindCmd c).attempt < (bindCmd c).fail_before_effect_n →
      probeIsDone st.ledger (eidOf c) = false →
      (handle_command true now2 st c).outcome = .failed "ledger error") := by
  refine ⟨fun h => mark_new_of_absent l eid run_id step_id business_key payload now h,
    fun r h => mark_new_of_present l eid run_id step_id business_key payload now r h,
    by unfold mark_in_progress_if_new execInsert; rfl,
    fun st c now2 hpre hprobe => ?_⟩
  unfold eidOf at hprobe
  simp [handle_command, hpre, hprobe, mark_in_progress_if_new, execInsert]

/-- Closed witness for C3 at concrete inputs. -/
theorem c3_witness :
    mark_in_progress_if_new false [] "r1:charge_card:order-A" "r1" "charge_card"
        "order-A" wCmdA 7 =
      .ok ([("r1:charge_card:order-A",
        { run_id := "r1", step_id := "charge_card", business_key := "order-A",
          status := "in_progress", artifact_path := none,
          created_ms := 7, updated_ms := 7, payload := wCmdA })], true)
  ∧ mark_in_progress_if_new false wStDone.ledger "r1:charge_card:order-A" "r1"
      "charge_card" "order-A" wCmdA 7 = .ok (wStDone.ledger, false)
  ∧ mark_in_progress_if_new true [] "e" "r" "s" "b" wCmdEmpty 0 =
      .error .operationalError
  ∧ (handle_command true 0 wStEmpty wCmdA).outcome = .failed "ledger error" :=
  ⟨(c3_mark_in_progress_semantics [] "r1:charge_card:order-A" "r1" "charge_card"
      "order-A" wCmdA 7).1 rfl,
   (c3_mark_in_progress_semantics wStDone.ledger "r1:charge_card:order-A" "r1"
      "charge_card" "order-A" wCmdA 7).2.1 wRowDone (by decide),
   (c3_mark_in_progress_semantics [] "e" "r" "s" "b" wCmdEmpty 0).2.2.1,
   (c3_mark_in_progress_semantics [] "e" "r" "s" "b" wCmdEmpty 0).2.2.2
     wStEmpty wCmdA 0 (by decide) (by decide)⟩

/-- C8 -- When the status probe observes a `done` row for the effect id,
the handler emits `side_effect.skipped` with reason `already_done` and
proceeds to normal completion, leaving the ledger and the artifact
directory untouched. -/
theorem c8_already_done_skips (dbF : Bool) (now : Int) (st : WState) (c : Cmd)
    (hpre : (bindCmd c).fail_before_effect_n ≤ (bindCmd c).attempt)
    (hdone : probeIsDone st.ledger (eidOf c) = true) :
    handle_command dbF now st c =
      { state := st
        events := [stepStartedAct (bindCmd c), skippedDoneAct (bindCmd c) (eidOf c),
          stepCompletedAct (bindCmd c), runCompletedAct (bindCmd c)]
        outcome := .ok
        claimed := none } := by
  unfold handle_command eidOf at *
  rw [if_neg (not_lt.mpr hpre), if_pos hdone]

/-- Closed witness for C8: a redelivery that finds the `done` row. -/
theorem c8_witness :
    probeIsDone wStDone.ledger (eidOf wCmdA) = true
  ∧ handle_command false 100 wStDone wCmdA =
      { state := wStDone
        events := [stepStartedAct (bindCmd wCmdA),
          skippedDoneAct (bindCmd wCmdA) (eidOf wCmdA),
          stepCompletedAct (bindCmd wCmdA), runCompletedAct (bindCmd wCmdA)]
        outcome := .ok
        claimed := none } :=
  ⟨by decide, c8_already_done_skips false 100 wStDone wCmdA (by decide) (by decide)⟩

/-- C4 -- When the ledger claim returns false (a row for the effect id
already exists), the handler never creates the artifact: if the ticket
file already exists it finalises the row via `mark_done` and emits
`side_effect.healed`, otherwise it emits `side_effect.skipped` with
reason `already_in_progress`; in both cases it runs to normal completion
without performing the side effect. -/
theorem c4_claim_lost_heals_or_skips (now : Int) (st : WState) (c : Cmd) (r : Row)
    (hpre : (bindCmd c).fail_before_effect_n ≤ (bindCmd c).attempt)
    (hnotdone : probeIsDone st.ledger (eidOf c) = false)
    (hrow : assocLookup st.ledger (eidOf c) = some r) :
    (∀ t : Ticket,
      assocLookup st.artifacts (ticketPath (bindCmd c).business_key) = some t →
      handle_command false now st c =
        { state := { ledger := mark_done st.ledger (eidOf c)
                       (ticketPath (bindCmd c).business_key) now
                     artifacts := st.artifacts }
          events := [stepStartedAct (bindCmd c), healedAct (bindCmd c) (eidOf c),
            stepCompletedAct (bindCmd c), runCompletedAct (bindCmd c)]
          outcome := .ok
          claimed := some false })
  ∧ (assocLookup st.artifacts (ticketPath (bindCmd c).business_key) = none →
      handle_command false now st c =
        { state := st
          events := [stepStartedAct (bindCmd c),
            skippedInProgressAct (bindCmd c) (eidOf c),
            stepCompletedAct (bindCmd c), runCompletedAct (bindCmd c)]
          outcome := .ok
          claimed := some false }) := by
  unfold eidOf at *
  have hm := mark_new_of_present st.ledger
    (effect_id_for (bindCmd c).run_id (bindCmd c).step_id (bindCmd c).business_key)
    (bindCmd c).run_id (bindCmd c).step_id (bindCmd c).business_key c now r hrow
  constructor
  · intro t ht
    simp [handle_command, not_lt.mpr hpre, hnotdone, hm, ht]
  · intro ht
    simp [handle_command, not_lt.mpr hpre, hnotdone, hm, ht]

/-- Closed witness for C4: both the heal branch (in-progress row plus an
existing artifact) and the skip branch (in-progress row, no artifact). -/
theorem c4_witness :
    handle_command false 100 wStHealable wCmdCrash =
      { state := { ledger := mark_done wStHealable.ledger (eidOf wCmdCrash)
                     (ticketPath (bindCmd wCmdCrash).business_key) 100
                   artifacts := wStHealable.artifacts }
        events := [stepStartedAct (bindCmd wCmdCrash),
          healedAct (bindCmd wCmdCrash) (eidOf wCmdCrash),
          stepCompletedAct (bindCmd wCmdCrash), runCompletedAct (bindCmd wCmdCrash)]
        outcome := .ok
        claimed := some false }
  ∧ handle_command false 100 wStInProgress wCmdCrash =
      { state := wStInProgress
        events := [stepStartedAct (bindCmd wCmdCrash),
          skippedInProgressAct (bindCmd wCmdCrash) (eidOf wCmdCrash),
          stepCompletedAct (bindCmd wCmdCrash), runCompletedAct (bindCmd wCmdCrash)]
        outcome := .ok
        claimed := some false } :=
  ⟨(c4_claim_lost_heals_or_skips 100 wStHealable wCmdCrash wRowInProgress
      (by decide) (by decide) (by decide)).1
      { created_ms := -5, run_id := "r1", step_id := "charge_card",
        business_key := "order-C", amount := 42,
        note := "fake external side effect (ticket/webhook/charge)" } (by decide),
   (c4_claim_lost_heals_or_skips 100 wStInProgress wCmdCrash wRowInProgress
      (by decide) (by decide) (by decide)).2 (by decide)⟩

/-- C9 -- When the claim wins but the create-only artifact write finds
the ticket file already existing, the handler treats it as success: the
pre-existing artifact is left unchanged, `mark_done` still records the
`done` row with the artifact path, `side_effect.done` is emitted, and
the claim result was true. -/
theorem c9_already_existed_is_success (now : Int) (st : WState) (c : Cmd) (t : Ticket)
    (hpre : (bindCmd c).fail_before_effect_n ≤ (bindCmd c).attempt)
    (hnotdone : probeIsDone st.ledger (eidOf c) = false)
    (hnew : assocLookup st.ledger (eidOf c) = none)
    (hart : assocLookup st.artifacts (ticketPath (bindCmd c).business_key) = some t) :
    (handle_command false now st c).state.artifacts = st.artifacts
  ∧ assocLookup (handle_command false now st c).state.ledger (eidOf c) =
      some { run_id := (bindCmd c).run_id, step_id := (bindCmd c).step_id,
             business_key := (bindCmd c).business_key, status := "done",
             artifact_path := some (ticketPath (bindCmd c).business_key),
             created_ms := now, updated_ms := now, payload := c }
  ∧ doneAct (bindCmd c) (eidOf c) (ticketPath (bindCmd c).business_key) ∈
      (handle_command false now st c).events
  ∧ (handle_command false now st c).claimed = some true := by
  unfold eidOf at *
  have hm := mark_new_of_absent st.ledger
    (effect_id_for (bindCmd c).run_id (bindCmd c).step_id (bindCmd c).business_key)
    (bindCmd c).run_id (bindCmd c).step_id (bindCmd c).business_key c now hnew
  by_cases hmode : (bindCmd c).fail_mode = "crash_after_effect_before_ack" <;>
    simp [handle_command, not_lt.mpr hpre, hnotdone, hm, hmode, createOnlyWrite,
      hart, mark_done, assocLookup]

/-- Closed witness for C9: heal-from-orphaned-artifact (spec scenario 6). -/
theorem c9_witness :
    assocLookup wStArtifactOnly.artifacts
      (ticketPath (bindCmd wCmdA).business_key) = some wTicketA
  ∧ (handle_command false 100 wStArtifactOnly wCmdA).state.artifacts =
      wStArtifactOnly.artifacts
  ∧ assocLookup (handle_command false 100 wStArtifactOnly wCmdA).state.ledger
        (eidOf wCmdA) =
      some { run_id := (bindCmd wCmdA).run_id, step_id := (bindCmd wCmdA).step_id,
             business_key := (bindCmd wCmdA).business_key, status := "done",
             artifact_path := some (ticketPath (bindCmd wCmdA).business_key),
             created_ms := 100, updated_ms := 100, payload := wCmdA }
  ∧ doneAct (bindCmd wCmdA) (eidOf wCmdA)
        (ticketPath (bindCmd wCmdA).business_key) ∈
      (handle_command false 100 wStArtifactOnly wCmdA).events
  ∧ (handle_command false 100 wStArtifactOnly wCmdA).claimed = some true :=
  ⟨by decide,
   c9_already_existed_is_success 100 wStArtifactOnly wCmdA wTicketA
     (by decide) (by decide) (by decide) (by decide)⟩

/-- C2 (counterexample) -- The claim is false for the skipped branch: a
chaos-mode command whose ledger claim loses (an `in_progress` row exists,
no artifact) does not crash; it completes normally, emits
`step.completed` and `run.completed`, and the delivery is acked. -/
theorem c2_counterexample :
    (bindCmd wCmdCrash).fail_mode = "crash_after_effect_before_ack"
  ∧ (bindCmd wCmdCrash).fail_before_effect_n ≤ (bindCmd wCmdCrash).attempt
  ∧ (handle_command false 100 wStInProgress wCmdCrash).outcome = .ok
  ∧ chaosAct (bindCmd wCmdCrash) ∉
      (handle_command false 100 wStInProgress wCmdCrash).events
  ∧ stepCompletedAct (bindCmd wCmdCrash) ∈
      (handle_command false 100 wStInProgress wCmdCrash).events
  ∧ runCompletedAct (bindCmd wCmdCrash) ∈
      (handle_command false 100 wStInProgress wCmdCrash).events
  ∧ Action.ack ∈
      (process_delivery wStInProgress
        { value := .cmd wCmdCrash, now := 100, u := 0, dbFault := false }).actions
  ∧ (process_delivery wStInProgress
      { value := .cmd wCmdCrash, now := 100, u := 0, dbFault := false }).crashed
      = false := by
  decide

/-- C2 (amended) -- In chaos mode the crash happens only on the executed
branch: when the command does not fail pre-effect and its ledger claim
returns true, the handler, after `side_effect.done`, emits
`chaos.crash_now` and terminates abruptly with exit code 137; the
delivery is not acked and no `step.completed` or `run.completed` is
emitted.  (On the skipped and healed branches no crash occurs, see the
counterexample.) -/
theorem c2_crash_only_when_claim_won (now : Int) (u : ℚ) (st : WState) (c : Cmd)
    (hmode : (bindCmd c).fail_mode = "crash_after_effect_before_ack")
    (hpre : (bindCmd c).fail_before_effect_n ≤ (bindCmd c).attempt)
    (hnotdone : probeIsDone st.ledger (eidOf c) = false)
    (hnew : assocLookup st.ledger (eidOf c) = none) :
    handle_command false now st c =
      { state := { ledger := mark_done ((eidOf c,
                     { run_id := (bindCmd c).run_id, step_id := (bindCmd c).step_id,
                       business_key := (bindCmd c).business_key,
                       status := "in_progress", artifact_path := none,
                       created_ms := now, updated_ms := now, payload := c })
                     :: st.ledger) (eidOf c)
                     (ticketPath (bindCmd c).business_key) now
                   artifacts := createOnlyWrite st.artifacts
                     (ticketPath (bindCmd c).business_key)
                     (ticketOf (bindCmd c) now) }
        events := [stepStartedAct (bindCmd c), executingAct (bindCmd c) (eidOf c),
          doneAct (bindCmd c) (eidOf c) (ticketPath (bindCmd c).business_key),
          chaosAct (bindCmd c)]
        outcome := .crashed 137
        claimed := some true }
  ∧ process_delivery st { value := .cmd c, now := now, u := u, dbFault := false } =
      { state := (handle_command false now st c).state
        actions := (handle_command false now st c).events
        crashed := true }
  ∧ Action.ack ∉
      (process_delivery st
        { value := .cmd c, now := now, u := u, dbFault := false }).actions
  ∧ stepCompletedAct (bindCmd c) ∉ (handle_command false now st c).events
  ∧ runCompletedAct (bindCmd c) ∉ (handle_command false now st c).events := by
  unfold eidOf at *
  have hm := mark_new_of_absent st.ledger
    (effect_id_for (bindCmd c).run_id (bindCmd c).step_id (bindCmd c).business_key)
    (bindCmd c).run_id (bindCmd c).step_id (bindCmd c).business_key c now hnew
  have hh : handle_command false now st c =
      { state := { ledger := mark_done ((effect_id_for (bindCmd c).run_id
                     (bindCmd c).step_id (bindCmd c).business_key,
                     { run_id := (bindCmd c).run_id, step_id := (bindCmd c).step_id,
                       business_key := (bindCmd c).business_key,
                       status := "in_progress", artifact_path := none,
                       created_ms := now, updated_ms := now, payload := c })
                     :: st.ledger)
                     (effect_id_for (bindCmd c).run_id (bindCmd c).step_id
                       (bindCmd c).business_key)
                     (ticketPath (bindCmd c).business_key) now
                   artifacts := createOnlyWrite st.artifacts
                     (ticketPath (bindCmd c).business_key)
                     (ticketOf (bindCmd c) now) }
        events := [stepStartedAct (bindCmd c),
          executingAct (bindCmd c) (effect_id_for (bindCmd c).run_id
            (bindCmd c).step_id (bindCmd c).business_key),
          doneAct (bindCmd c) (effect_id_for (bindCmd c).run_id (bindCmd c).step_id
            (bindCmd c).business_key) (ticketPath (bindCmd c).business_key),
          chaosAct (bindCmd c)]
        outcome := .crashed 137
        claimed := some true } := by
    simp [handle_command, not_lt.mpr hpre, hnotdone, hm, hmode]
  refine ⟨hh, ?_, ?_, ?_, ?_⟩
  · simp [process_delivery, hh]
  · simp [process_delivery, hh, stepStartedAct, executingAct, doneAct, chaosAct]
  · simp [hh, stepStartedAct, executingAct, doneAct, chaosAct, stepCompletedAct]
  · simp [hh, stepStartedAct, executingAct, doneAct, chaosAct, runCompletedAct]

/-- Closed witness for the amended C2, at the chaos-mode command on a
fresh state. -/
theorem c2_witness :
    (handle_command false 100 wStEmpty wCmdCrash).outcome = .crashed 137
  ∧ Action.ack ∉
      (process_delivery wStEmpty
        { value := .cmd wCmdCrash, now := 100, u := 0, dbFault := false }).actions
  ∧ stepCompletedAct (bindCmd wCmdCrash) ∉
      (handle_command false 100 wStEmpty wCmdCrash).events := by
  have h := c2_crash_only_when_claim_won 100 0 wStEmpty wCmdCrash (by decide)
    (by decide) (by decide) (by decide)
  exact ⟨by rw [h.1], h.2.2.1, h.2.2.2.1⟩

/-- C6 (counterexample) -- A dict-shaped command missing every required
field is not acked-and-dropped: the consume loop invokes the handler on
it (a `step.started` event is emitted). -/
theorem c6_counterexample :
    wCmdEmpty.run_id = none
  ∧ wCmdEmpty.business_key = none
  ∧ (process_delivery wStEmpty
      { value := .cmd wCmdEmpty, now := 0, u := 0, dbFault := false }).actions ≠
      [Action.ack]
  ∧ stepStartedAct (bindCmd wCmdEmpty) ∈
      (process_delivery wStEmpty
        { value := .cmd wCmdEmpty, now := 0, u := 0, dbFault := false }).actions := by
  decide

/-- C6 (amended) -- Only a malformed (non-dict) delivery value is poison:
the consume loop acks it and drops it, invoking no handler and producing
no DLQ record; dict-shaped commands, even with required fields missing,
are passed to the handler with defaults substituted. -/
theorem c6_nondict_acked_and_dropped (st : WState) (now : Int) (u : ℚ) (f : Bool) :
    process_delivery st { value := .notDict, now := now, u := u, dbFault := f } =
      { state := st, actions := [.ack], crashed := false } := rfl

/-- C5 -- When the handler raises, the scheduler computes
`next = attempt + 1` and `backoff = min(2 ** attempt, 10) + u` with `u`
the uniform sample, emits `retry.considered`, and then either produces a
DLQ record under key `dlq:{run_id}:{step_id}:{business_key}` and emits
`run.dlq` (when `next >= max_attempts`), or produces a copy of the
command with `attempt = next` under key
`cmd:{run_id}:{step_id}:{business_key}:a{next}` and emits
`retry.scheduled`; the original delivery is acked in both branches. -/
theorem c5_retry_or_dlq (st : WState) (d : Delivery) (c : Cmd) (err : String)
    (hv : d.value = .cmd c)
    (hf : (handle_command d.dbFault d.now st c).outcome = .failed err) :
    backoff_s (loopBind c).attempt d.u = min ((2 : ℚ) ^ (loopBind c).attempt) 10 + d.u
  ∧ process_delivery st d =
      (if (loopBind c).max_attempts ≤ (loopBind c).attempt + 1 then
        { state := (handle_command d.dbFault d.now st c).state
          actions := (handle_command d.dbFault d.now st c).events ++
            [consideredAct (loopBind c) err d.u,
             dlqProduceAct (loopBind c) d.now err c,
             runDlqAct (loopBind c) err, .ack]
          crashed := false }
      else
        { state := (handle_command d.dbFault d.now st c).state
          actions := (handle_command d.dbFault d.now st c).events ++
            [consideredAct (loopBind c) err d.u,
             retryProduceAct (loopBind c) d.now c,
             retryScheduledAct (loopBind c), .ack]
          crashed := false })
  ∧ (retryCmdOf c ((loopBind c).attempt + 1) d.now).attempt =
      some ((loopBind c).attempt + 1) := by
  obtain ⟨v, now, u, f⟩ := d
  subst hv
  refine ⟨rfl, ?_, rfl⟩
  simp only [process_delivery]
  rw [hf]

/-- Closed witness for C5: the forced pre-effect failure is retried with
`attempt = 1`. -/
theorem c5_witness :
    (handle_command false 100 wStEmpty wCmdPre).outcome =
      .failed "forced failure before side effect"
  ∧ process_delivery wStEmpty
      { value := .cmd wCmdPre, now := 100, u := 1/2, dbFault := false } =
      (if (loopBind wCmdPre).max_attempts ≤ (loopBind wCmdPre).attempt + 1 then
        { state := (handle_command false 100 wStEmpty wCmdPre).state
          actions := (handle_command false 100 wStEmpty wCmdPre).events ++
            [consideredAct (loopBind wCmdPre) "forced failure before side effect" (1/2),
             dlqProduceAct (loopBind wCmdPre) 100 "forced failure before side effect"
               wCmdPre,
             runDlqAct (loopBind wCmdPre) "forced failure before side effect", .ack]
          crashed := false }
      else
        { state := (handle_command false 100 wStEmpty wCmdPre).state
          actions := (handle_command false 100 wStEmpty wCmdPre).events ++
            [consideredAct (loopBind wCmdPre) "forced failure before side effect" (1/2),
             retryProduceAct (loopBind wCmdPre) 100 wCmdPre,
             retryScheduledAct (loopBind wCmdPre), .ack]
          crashed := false }) :=
  ⟨by decide,
   (c5_retry_or_dlq wStEmpty
     { value := .cmd wCmdPre, now := 100, u := 1/2, dbFault := false } wCmdPre
     "forced failure before side effect" rfl (by decide)).2.1⟩

/-- The create-only artifact write leaves the path populated whether or
not the file already existed. -/
theorem createOnlyWrite_present (fs : Artifacts) (p : String) (t : Ticket) :
    (assocLookup (createOnlyWrite fs p t) p).isSome = true := by
  unfold createOnlyWrite
  cases h : assocLookup fs p with
  | some t2 => simp [h]
  | none => simp [assocLookup]

/-- C10 -- `handle_command` accepts every dict-shaped command,
substituting defaults for missing or falsy fields: `step_id` defaults to
`charge_card`, `business_key` to the literal string `missing`, `amount`
to 0, `attempt` to 0, `fail_before_effect_n` to 0, `fail_mode` to
`none`, `events_topic` to `sidefx.events.{run_id}`, and in the consume
loop `max_attempts` to 5; a command with no `business_key` proceeds
through the full ledger/artifact path keyed by the string `missing`. -/
theorem c10_defaults :
    bindCmd wCmdEmpty =
      { run_id := "None", events_topic := "sidefx.events.None",
        step_id := "charge_card", business_key := "missing", amount := 0,
        attempt := 0, fail_before_effect_n := 0, fail_mode := "none" }
  ∧ (∀ c : Cmd, c.step_id = none ∨ c.step_id = some "" →
      (bindCmd c).step_id = "charge_card")
  ∧ (∀ c : Cmd, c.business_key = none ∨ c.business_key = some "" →
      (bindCmd c).business_key = "missing")
  ∧ (∀ c : Cmd, c.amount = none → (bindCmd c).amount = 0)
  ∧ (∀ c : Cmd, c.attempt = none ∨ c.attempt = some 0 → (bindCmd c).attempt = 0)
  ∧ (∀ c : Cmd, c.fail_before_effect_n = none ∨ c.fail_before_effect_n = some 0 →
      (bindCmd c).fail_before_effect_n = 0)
  ∧ (∀ c : Cmd, c.fail_mode = none ∨ c.fail_mode = some "" →
      (bindCmd c).fail_mode = "none")
  ∧ (∀ c : Cmd, c.events_topic = none ∨ c.events_topic = some "" →
      (bindCmd c).events_topic = "sidefx.events." ++ pyStr c.run_id)
  ∧ (∀ c : Cmd, c.max_attempts = none ∨ c.max_attempts = some 0 →
      (loopBind c).max_attempts = 5)
  ∧ (∀ (st : WState) (c : Cmd) (now : Int),
      c.business_key = none →
      (bindCmd c).fail_before_effect_n ≤ (bindCmd c).attempt →
      assocLookup st.ledger (eidOf c) = none →
      (handle_command false now st c).claimed = some true
      ∧ eidOf c = effect_id_for (bindCmd c).run_id (bindCmd c).step_id "missing"
      ∧ (assocLookup (handle_command false now st c).state.artifacts
          (ticketPath "missing")).isSome = true) := by
  refine ⟨by decide, ?_, ?_, ?_, ?_, ?_, ?_, ?_, ?_, ?_⟩
  · rintro c (h | h) <;> simp [bindCmd, strOr, h]
  · rintro c (h | h) <;> simp [bindCmd, strOr, h]
  · intro c h; simp [bindCmd, h]
  · rintro c (h | h) <;> simp [bindCmd, intOr, h]
  · rintro c (h | h) <;> simp [bindCmd, intOr, h]
  · rintro c (h | h) <;> simp [bindCmd, strOr, h]
  · rintro c (h | h) <;> simp [bindCmd, strOr, h]
  · rintro c (h | h) <;> simp [loopBind, intOr, h]
  · intro st c now hbk hpre hnew
    have hbk2 : (bindCmd c).business_key = "missing" := by
      simp [bindCmd, strOr, hbk]
    rw [← hbk2]
    have hnotdone : probeIsDone st.ledger (eidOf c) = false := by
      unfold probeIsDone get_status eidOf
      unfold eidOf at hnew
      rw [hnew]
      rfl
    unfold eidOf at *
    have hm := mark_new_of_absent st.ledger
      (effect_id_for (bindCmd c).run_id (bindCmd c).step_id (bindCmd c).business_key)
      (bindCmd c).run_id (bindCmd c).step_id (bindCmd c).business_key c now hnew
    by_cases hmode : (bindCmd c).fail_mode = "crash_after_effect_before_ack" <;>
      simp [handle_command, not_lt.mpr hpre, hnotdone, hm, hmode,
        createOnlyWrite_present]

/-- Closed witness for C10: the all-fields-missing command binds to the
documented defaults and runs the full artifact path keyed `missing`. -/
theorem c10_witness :
    (bindCmd wCmdEmpty).business_key = "missing"
  ∧ (loopBind wCmdEmpty).max_attempts = 5
  ∧ (handle_command false 0 wStEmpty wCmdEmpty).claimed = some true
  ∧ (assocLookup (handle_command false 0 wStEmpty wCmdEmpty).state.artifacts
      (ticketPath "missing")).isSome = true := by
  obtain ⟨h1, h2, h3, h4, h5, h6, h7, h8, h9, h10⟩ := c10_defaults
  exact ⟨h3 wCmdEmpty (Or.inl rfl), h9 wCmdEmpty (Or.inl rfl),
    (h10 wStEmpty wCmdEmpty 0 rfl (by decide) rfl).1,
    (h10 wStEmpty wCmdEmpty 0 rfl (by decide) rfl).2.2⟩

/-! Lemmas about processing a sequence of deliveries. -/

theorem runAll_append (st : WState) (l1 l2 : List Delivery) :
    runAll st (l1 ++ l2) =
      ((runAll (runAll st l1).1 l2).1,
        (runAll st l1).2 ++ (runAll (runAll st l1).1 l2).2) := by
  induction l1 generalizing st with
  | nil => simp [runAll]
  | cons d ds ih => simp [runAll, ih, List.append_assoc]

theorem runAll_state_id (st : WState) (ds : List Delivery)
    (h : ∀ d ∈ ds, (process_delivery st d).state = st) :
    (runAll st ds).1 = st := by
  induction ds with
  | nil => rfl
  | cons d ds ih =>
    have h1 : (process_delivery st d).state = st := h d (List.mem_cons_self d ds)
    simp only [runAll, h1]
    exact ih (fun d2 hd2 => h d2 (List.mem_cons_of_mem d hd2))

/-- The handler on the forced pre-effect failure path: fixed events,
raised failure, and a result that does not depend on (or change) the
ledger or the artifact directory. -/
theorem handler_prefail (dbF : Bool) (now : Int) (st : WState) (c : Cmd)
    (h : (bindCmd c).attempt < (bindCmd c).fail_before_effect_n) :
    handle_command dbF now st c =
      { state := st
        events := [stepStartedAct (bindCmd c), stepFailedAct (bindCmd c)]
        outcome := .failed "forced failure before side effect"
        claimed := none } := by
  unfold handle_command
  rw [if_pos h]

/-- One consume-loop pass over a command on the forced pre-effect
failure path. -/
theorem process_prefail (st : WState) (c : Cmd) (now : Int) (u : ℚ) (dbF : Bool)
    (h : (bindCmd c).attempt < (bindCmd c).fail_before_effect_n) :
    process_delivery st { value := .cmd c, now := now, u := u, dbFault := dbF } =
      (if (loopBind c).max_attempts ≤ (loopBind c).attempt + 1 then
        { state := st
          actions := [stepStartedAct (bindCmd c), stepFailedAct (bindCmd c),
            consideredAct (loopBind c) "forced failure before side effect" u,
            dlqProduceAct (loopBind c) now "forced failure before side effect" c,
            runDlqAct (loopBind c) "forced failure before side effect", .ack]
          crashed := false }
      else
        { state := st
          actions := [stepStartedAct (bindCmd c), stepFailedAct (bindCmd c),
            consideredAct (loopBind c) "forced failure before side effect" u,
            retryProduceAct (loopBind c) now c,
            retryScheduledAct (loopBind c), .ack]
          crashed := false }) := by
  have hh := handler_prefail dbF now st c h
  simp only [process_delivery, hh]
  split <;> rfl

theorem bindCmd_set_attempt (c : Cmd) (k : Int) :
    bindCmd { c with attempt := some k } =
      { bindCmd c with attempt := k } := by
  by_cases hk : k = 0 <;> simp [bindCmd, intOr, hk]

theorem loopBind_set_attempt (c : Cmd) (k : Int) :
    loopBind { c with attempt := some k } =
      { loopBind c with attempt := k } := by
  by_cases hk : k = 0 <;> simp [loopBind, intOr, hk]

/-- C7 -- A command with `attempt < fail_before_effect_n` emits
`step.failed` with reason `forced_failure_before_side_effect` and
raises; this path performs no ledger read or write and no artifact
write (the handler result is a fixed value independent of the ledger
and artifact contents, with the state returned unchanged).
Consequently a run with `fail_before_effect_n = max_attempts` — all
attempts 0 .. max_attempts-1 delivered — ends with the ledger and the
artifact directory still empty and a DLQ record produced. -/
theorem c7_prefail_touches_nothing :
    (∀ (dbF : Bool) (now : Int) (st : WState) (c : Cmd),
      (bindCmd c).attempt < (bindCmd c).fail_before_effect_n →
      handle_command dbF now st c =
        { state := st
          events := [stepStartedAct (bindCmd c), stepFailedAct (bindCmd c)]
          outcome := .failed "forced failure before side effect"
          claimed := none })
  ∧ (∀ (c : Cmd) (n : Nat) (now : Int) (u : ℚ) (dbF : Bool),
      c.fail_before_effect_n = some ((n : Int) + 1) →
      c.max_attempts = some ((n : Int) + 1) →
      (runAll wStEmpty ((List.range (n+1)).map (fun k =>
          { value := .cmd { c with attempt := some (Int.ofNat k) },
            now := now, u := u, dbFault := dbF }))).1 = wStEmpty
      ∧ dlqProduceAct (loopBind { c with attempt := some (Int.ofNat n) }) now
          "forced failure before side effect" { c with attempt := some (Int.ofNat n) }
          ∈ (runAll wStEmpty ((List.range (n+1)).map (fun k =>
              { value := .cmd { c with attempt := some (Int.ofNat k) },
                now := now, u := u, dbFault := dbF }))).2) := by
  refine ⟨fun dbF now st c h => handler_prefail dbF now st c h, ?_⟩
  intro c n now u dbF hfbn hmax
  have hne : ((n : Int) + 1) ≠ 0 := by omega
  have hfbn2 : (bindCmd c).fail_before_effect_n = (n : Int) + 1 := by
    simp [bindCmd, intOr, hfbn, hne]
  have hmax2 : (loopBind c).max_attempts = (n : Int) + 1 := by
    simp [loopBind, intOr, hmax, hne]
  have hbindk : ∀ k : Nat, k < n + 1 →
      (bindCmd { c with attempt := some (Int.ofNat k) }).attempt <
      (bindCmd { c with attempt := some (Int.ofNat k) }).fail_before_effect_n := by
    intro k hk
    rw [bindCmd_set_attempt]
    show Int.ofNat k < (bindCmd c).fail_before_effect_n
    rw [hfbn2]
    simp only [Int.ofNat_eq_natCast]
    omega
  have hstate : ∀ (st2 : WState) (k : Nat), k < n + 1 →
      (process_delivery st2
        { value := .cmd { c with attempt := some (Int.ofNat k) },
          now := now, u := u, dbFault := dbF }).state = st2 := by
    intro st2 k hk
    rw [process_prefail st2 _ now u dbF (hbindk k hk)]
    split <;> rfl
  rw [List.range_succ, List.map_append]
  rw [runAll_append]
  have hstpre : (runAll wStEmpty ((List.range n).map (fun k =>
      ({ value := .cmd { c with attempt := some (Int.ofNat k) },
         now := now, u := u, dbFault := dbF } : Delivery)))).1 = wStEmpty := by
    apply runAll_state_id
    intro d hd
    simp only [List.mem_map, List.mem_range] at hd
    obtain ⟨k, hk, rfl⟩ := hd
    exact hstate wStEmpty k (Nat.lt_succ_of_lt hk)
  have hdlqBranch : (loopBind { c with attempt := some (Int.ofNat n) }).max_attempts ≤
      (loopBind { c with attempt := some (Int.ofNat n) }).attempt + 1 := by
    rw [loopBind_set_attempt]
    show (loopBind c).max_attempts ≤ Int.ofNat n + 1
    rw [hmax2]
    simp only [Int.ofNat_eq_natCast]
    omega
  have hlast := process_prefail wStEmpty { c with attempt := some (Int.ofNat n) }
    now u dbF (hbindk n (Nat.lt_succ_self n))
  rw [if_pos hdlqBranch] at hlast
  simp only [Int.ofNat_eq_natCast] at hlast
  constructor
  · rw [hstpre]
    simp [runAll, hlast]
  · rw [hstpre]
    apply List.mem_append_right
    simp [runAll, hlast]

/-- Closed witness for C7: `max_attempts = 1, fail_before_effect_n = 1`
terminates in the DLQ with empty ledger and no artifact. -/
theorem c7_witness :
    (bindCmd wCmdDlq).attempt < (bindCmd wCmdDlq).fail_before_effect_n
  ∧ handle_command false 100 wStEmpty wCmdDlq =
      { state := wStEmpty
        events := [stepStartedAct (bindCmd wCmdDlq), stepFailedAct (bindCmd wCmdDlq)]
        outcome := .failed "forced failure before side effect"
        claimed := none }
  ∧ (runAll wStEmpty ((List.range 1).map (fun k =>
      { value := .cmd { wCmdDlq with attempt := some (Int.ofNat k) },
        now := 100, u := 0, dbFault := false }))).1 = wStEmpty
  ∧ dlqProduceAct (loopBind { wCmdDlq with attempt := some (Int.ofNat 0) }) 100
      "forced failure before side effect" { wCmdDlq with attempt := some (Int.ofNat 0) }
      ∈ (runAll wStEmpty ((List.range 1).map (fun k =>
          { value := .cmd { wCmdDlq with attempt := some (Int.ofNat k) },
            now := 100, u := 0, dbFault := false }))).2 := by
  have h1 := c7_prefail_touches_nothing.1 false 100 wStEmpty wCmdDlq (by decide)
  have h2 := c7_prefail_touches_nothing.2 wCmdDlq 0 100 0 false rfl rfl
  exact ⟨by decide, h1, h2.1, h2.2⟩

/-! Monotonicity of the artifact directory and the at-most-once
creation invariant. -/

theorem createOnlyWrite_mono (fs : Artifacts) (path p : String) (tk t : Ticket)
    (h : assocLookup fs p = some t) :
    assocLookup (createOnlyWrite fs path tk) p = some t := by
  unfold createOnlyWrite
  cases hpath : assocLookup fs path with
  | some t2 => exact h
  | none =>
    show assocLookup ((path, tk) :: fs) p = some t
    unfold assocLookup
    by_cases hpp : path = p
    · rw [hpp] at hpath
      rw [hpath] at h
      exact absurd h (by simp)
    · simp [hpp, h]

theorem handler_artifacts_mono (dbF : Bool) (now : Int) (st : WState) (c : Cmd)
    (p : String) (t : Ticket) (h : assocLookup st.artifacts p = some t) :
    assocLookup (handle_command dbF now st c).state.artifacts p = some t := by
  simp only [handle_command]
  split
  · exact h
  · split
    · exact h
    · split
      · exact h
      · split
        · split
          · exact createOnlyWrite_mono st.artifacts _ p _ t h
          · exact createOnlyWrite_mono st.artifacts _ p _ t h
        · split
          · exact h
          · exact h

theorem process_state_eq (st : WState) (d : Delivery) (c : Cmd)
    (hv : d.value = .cmd c) :
    (process_delivery st d).state = (handle_command d.dbFault d.now st c).state := by
  obtain ⟨v, now, u, f⟩ := d
  subst hv
  simp only [process_delivery]
  split
  · rfl
  · rfl
  · split <;> rfl

theorem process_artifacts_mono (st : WState) (d : Delivery) (p : String)
    (t : Ticket) (h : assocLookup st.artifacts p = some t) :
    assocLookup (process_delivery st d).state.artifacts p = some t := by
  cases hv : d.value with
  | notDict =>
    obtain ⟨v, now, u, f⟩ := d
    subst hv
    exact h
  | cmd c =>
    rw [process_state_eq st d c hv]
    exact handler_artifacts_mono d.dbFault d.now st c p t h

theorem presentAt_mono_step (p : String) (st : WState) (d : Delivery)
    (h : presentAt p st = true) :
    presentAt p (process_delivery st d).state = true := by
  unfold presentAt at *
  obtain ⟨t, ht⟩ := Option.isSome_iff_exists.mp h
  rw [process_artifacts_mono st d p t ht]
  rfl

theorem stateTrace_cons_form (st : WState) (ds : List Delivery) :
    ∃ tl, stateTrace st ds = st :: tl := by
  cases ds with
  | nil => exact ⟨[], rfl⟩
  | cons d ds => exact ⟨_, rfl⟩

theorem presence_chain (p : String) (st : WState) (ds : List Delivery) :
    List.Chain' (fun a b : Bool => a = true → b = true)
      ((stateTrace st ds).map (presentAt p)) := by
  induction ds generalizing st with
  | nil => simp [stateTrace]
  | cons d ds ih =>
    simp only [stateTrace, List.map_cons]
    obtain ⟨tl, htl⟩ := stateTrace_cons_form (process_delivery st d).state ds
    have htail := ih (process_delivery st d).state
    rw [htl, List.map_cons] at htail ⊢
    exact List.chain'_cons.mpr ⟨fun hp => presentAt_mono_step p st d hp, htail⟩

theorem riseCount_head_true (l : List Bool)
    (h : List.Chain' (fun a b : Bool => a = true → b = true) (true :: l)) :
    riseCount (true :: l) = 0 := by
  induction l with
  | nil => rfl
  | cons b rest ih =>
    rcases List.chain'_cons.mp h with ⟨hab, htail⟩
    have hb : b = true := hab rfl
    subst hb
    simp [riseCount, ih htail]

theorem riseCount_le_one (l : List Bool) :
    List.Chain' (fun a b : Bool => a = true → b = true) l → riseCount l ≤ 1 := by
  induction l with
  | nil => intro h; simp [riseCount]
  | cons a l ih =>
    intro h
    cases l with
    | nil => simp [riseCount]
    | cons b rest =>
      rcases List.chain'_cons.mp h with ⟨hab, htail⟩
      cases a
      · cases b
        · simpa [riseCount] using ih htail
        · simp [riseCount, riseCount_head_true rest htail]
      · have hb : b = true := hab rfl
        subst hb
        simp [riseCount, riseCount_head_true rest htail]

theorem handler_creates_only_when_claimed (dbF : Bool) (now : Int) (st : WState)
    (c : Cmd) (p : String)
    (habs : assocLookup st.artifacts p = none)
    (hpres : (assocLookup (handle_command dbF now st c).state.artifacts p).isSome
      = true) :
    (handle_command dbF now st c).claimed = some true
    ∧ p = ticketPath ((bindCmd c).business_key) := by
  by_cases hpf : (bindCmd c).attempt < (bindCmd c).fail_before_effect_n
  · rw [handler_prefail dbF now st c hpf] at hpres ⊢
    simp [habs] at hpres
  · cases hdone : probeIsDone st.ledger (effect_id_for (bindCmd c).run_id
        (bindCmd c).step_id (bindCmd c).business_key)
    · cases hmark : mark_in_progress_if_new dbF st.ledger
          (effect_id_for (bindCmd c).run_id (bindCmd c).step_id
            (bindCmd c).business_key)
          (bindCmd c).run_id (bindCmd c).step_id (bindCmd c).business_key c now with
      | error e =>
        simp only [handle_command, if_neg hpf, hdone, hmark] at hpres ⊢
        simp [habs] at hpres
      | ok pair =>
        obtain ⟨l2, inserted⟩ := pair
        cases inserted
        · cases hart : assocLookup st.artifacts (ticketPath (bindCmd c).business_key)
          · simp only [handle_command, if_neg hpf, hdone, hmark, hart] at hpres ⊢
            simp [habs] at hpres
          · simp only [handle_command, if_neg hpf, hdone, hmark, hart] at hpres ⊢
            simp [habs] at hpres
        · cases hart : assocLookup st.artifacts (ticketPath (bindCmd c).business_key)
          · by_cases hpp : ticketPath ((bindCmd c).business_key) = p
            · by_cases hmode : (bindCmd c).fail_mode = "crash_after_effect_before_ack" <;>
                simp [handle_command, if_neg hpf, hdone, hmark, hart, hmode, hpp.symm]
            · by_cases hmode : (bindCmd c).fail_mode = "crash_after_effect_before_ack" <;>
                · simp only [handle_command, if_neg hpf, hdone, hmark, hart,
                    hmode, if_pos, if_neg] at hpres ⊢
                  simp [createOnlyWrite, hart, assocLookup, hpp, habs] at hpres
          · by_cases hmode : (bindCmd c).fail_mode = "crash_after_effect_before_ack" <;>
              · simp only [handle_command, if_neg hpf, hdone, hmark, hart, hmode] at hpres ⊢
                simp [createOnlyWrite, hart, habs] at hpres
    · simp only [handle_command, if_neg hpf, hdone] at hpres ⊢
      simp [habs] at hpres

/-- C1 -- Along any sequence of deliveries (redeliveries and crash
restarts included), the ticket artifact at a given path goes from absent
to present at most once; and any step that performs that transition is a
handled command whose ledger claim (`mark_in_progress_if_new`) returned
true, writing exactly the ticket path of its bound business key. -/
theorem c1_artifact_created_at_most_once (p : String) (st : WState)
    (ds : List Delivery) :
    riseCount ((stateTrace st ds).map (presentAt p)) ≤ 1
  ∧ (∀ (st2 : WState) (d : Delivery),
      presentAt p st2 = false →
      presentAt p (process_delivery st2 d).state = true →
      ∃ c, d.value = .cmd c
        ∧ (handle_command d.dbFault d.now st2 c).claimed = some true
        ∧ p = ticketPath ((bindCmd c).business_key)) := by
  refine ⟨riseCount_le_one _ (presence_chain p st ds), fun st2 d h1 h2 => ?_⟩
  cases hv : d.value with
  | notDict =>
    obtain ⟨v, now, u, f⟩ := d
    subst hv
    simp only [process_delivery] at h2
    rw [h1] at h2
    exact absurd h2 (by simp)
  | cmd c =>
    unfold presentAt at h1 h2
    rw [process_state_eq st2 d c hv] at h2
    have habs : assocLookup st2.artifacts p = none :=
      Option.not_isSome_iff_eq_none.mp (by simp [h1])
    obtain ⟨hcl, hp⟩ := handler_creates_only_when_claimed d.dbFault d.now st2 c p
      habs h2
    exact ⟨c, rfl, hcl, hp⟩

/-- Closed witness for C1: a delivery, a chaos redelivery of the same
command and a healed redelivery create the artifact exactly once, and
the creating step's claim returned true. -/
theorem c1_witness :
    riseCount ((stateTrace wStEmpty
      [{ value := .cmd wCmdCrash, now := 100, u := 0, dbFault := false },
       { value := .cmd wCmdCrash, now := 200, u := 0, dbFault := false }]).map
        (presentAt "ticket_order-C.json")) ≤ 1
  ∧ ∃ c, ({ value := .cmd wCmdCrash, now := 100, u := 0, dbFault := false }
        : Delivery).value = .cmd c
      ∧ (handle_command false 100 wStEmpty c).claimed = some true
      ∧ "ticket_order-C.json" = ticketPath ((bindCmd c).business_key) :=
  ⟨(c1_artifact_created_at_most_once "ticket_order-C.json" wStEmpty
      [{ value := .cmd wCmdCrash, now := 100, u := 0, dbFault := false },
       { value := .cmd wCmdCrash, now := 200, u := 0, dbFault := false }]).1,
   (c1_artifact_created_at_most_once "ticket_order-C.json" wStEmpty []).2
     wStEmpty { value := .cmd wCmdCrash, now := 100, u := 0, dbFault := false }
     (by decide) (by decide)⟩

end DriftQ
